import Mathlib

/-!
Verification of `src/shared/util.js` of the face-detection demo.

The module has two independent parts:
* a backend configurator (`setBackendAndEnvFlags` / `resetBackend`) that
  validates a flag-configuration object against the allow-list
  `TUNABLE_FLAG_VALUE_RANGE_MAP`, applies it to the engine environment and
  resets the requested tfjs backend;
* an overlay renderer (`drawResults`) that draws a glasses image (or fallback
  circles) over the eye keypoints of each detected face.

The embedding models the external tfjs engine, the process-wide STATE record
and the canvas context explicitly.  Side effects are recorded in a trace so
that ordering and absence of calls can be stated.  A thrown JS exception is
modelled by an `Option JsError` in the outcome, together with the state and
trace at the moment of the throw (JS exceptions abort the rest of the
function body but keep the mutations already performed).
-/

namespace FaceDetectionUtil

/-- A primitive JS value, as stored in a flag config and in the allow-list
ranges.  `indexOf` in the source uses strict equality, which coincides with
decidable equality on this type. -/
inductive JSVal
  | vBool (b : Bool)
  | vNum (n : Int)
  | vStr (s : String)
deriving DecidableEq, Repr

/-- The process-wide `STATE` record from `params.js`, restricted to the two
fields this module reads or writes.  `lastTFJSBackend` is `none` when the
field is still `undefined`. -/
structure STATERecord where
  backend : String
  lastTFJSBackend : Option String
deriving DecidableEq, Repr

/-- The tfjs engine registries: `registryFactory` holds the names with a
registered backend factory, `registry` the names with a live backend
instance. -/
structure Engine where
  registryFactory : List String
  registry : List String
deriving DecidableEq, Repr

/-- The mutable world the configurator acts on: the engine registries, the
active backend, the environment flag store and the STATE record. -/
structure World where
  engine : Engine
  activeBackend : Option String
  envFlags : List (String × JSVal)
  state : STATERecord
deriving DecidableEq, Repr

/-- The errors the configurator can throw.  The source throws plain
`Error(message)` values; the constructors carry the data interpolated into
each message (see `JsError.message`).  `setBackendFailed` models a rejection
of the awaited `tf.setBackend` call propagating out of `resetBackend`. -/
inductive JsError
  | invalidArgument (typeName : String)
  | unknownFlag (flag : String)
  | invalidFlagValue (flag : String) (range : List JSVal) (value : JSVal)
  | backendNotRegistered (backendName : String)
  | setBackendFailed (backendName : String)
deriving DecidableEq, Repr

/-- Render a `JSVal` the way a JS template literal would. -/
def jsValToString : JSVal → String
  | .vBool true => "true"
  | .vBool false => "false"
  | .vNum n => toString n
  | .vStr s => s

/-- Render a list of values the way a JS template literal renders an array
(comma separated, no brackets). -/
def jsValListToString (l : List JSVal) : String :=
  String.intercalate "," (l.map jsValToString)

/-- The message of each thrown error, mirroring the template literals in the
source. -/
def JsError.message : JsError → String
  | .invalidArgument t =>
      "An object is expected, while a(n) " ++ t ++ " is found."
  | .unknownFlag flag =>
      flag ++ " is not a tunable or valid environment flag."
  | .invalidFlagValue flag range value =>
      flag ++ " value is expected to be in the range [" ++
        jsValListToString range ++ "], while " ++ jsValToString value ++
        " is found."
  | .backendNotRegistered name => name ++ " backend is not registered."
  | .setBackendFailed name => "failed to set backend " ++ name

/-- The observable side effects of a configurator call, in order. -/
inductive Effect
  | setFlagsCall (cfg : List (String × JSVal))
  | alertShown
  | showBackendConfigs
  | removeBackend (name : String)
  | registerBackend (name : String)
  | setBackend (name : String)
deriving DecidableEq, Repr

/-- The outcome of a configurator call: the error thrown (if any), the world
after the call and the trace of side effects performed before returning or
throwing. -/
structure Outcome where
  err : Option JsError
  world : World
  trace : List Effect
deriving DecidableEq, Repr

/-- JS truthiness of `STATE.lastTFJSBackend` (`!!STATE.lastTFJSBackend`):
`undefined` and the empty string are falsy. -/
def jsTruthyStr : Option String → Bool
  | none => false
  | some s => s != ""

/-- Lookup in the allow-list `TUNABLE_FLAG_VALUE_RANGE_MAP`, modelled as an
association list since `params.js` supplies it externally.  `none` models
`!(flag in TUNABLE_FLAG_VALUE_RANGE_MAP)`. -/
def lookupFlag (m : List (String × List JSVal)) (k : String) :
    Option (List JSVal) :=
  match m with
  | [] => none
  | (k2, v) :: rest => if k2 = k then some v else lookupFlag rest k

/-- One `obj[key] = value` assignment on a JS object modelled as an ordered
association list: overwrite in place, or append a fresh key. -/
def setAssoc (m : List (String × JSVal)) (k : String) (v : JSVal) :
    List (String × JSVal) :=
  match m with
  | [] => [(k, v)]
  | (k2, v2) :: rest =>
      if k2 = k then (k2, v) :: rest else (k2, v2) :: setAssoc rest k v

/-- `tf.env().setFlags(flagConfig)`: merge every entry of the config into the
engine environment flag store. -/
def envSetFlags (flags : List (String × JSVal))
    (cfg : List (String × JSVal)) : List (String × JSVal) :=
  cfg.foldl (fun acc p => setAssoc acc p.1 p.2) flags

/-- The validation loop of `setBackendAndEnvFlags` (source lines 88-99): walk
the config entries in iteration order; an entry whose key is missing from the
allow-list throws `UnknownFlag`, an entry whose value is outside the allowed
range throws `InvalidFlagValue`; the first offending entry wins. -/
def validateFlags (rangeMap : List (String × List JSVal)) :
    List (String × JSVal) → Option JsError
  | [] => none
  | (flag, value) :: rest =>
    match lookupFlag rangeMap flag with
    | none => some (JsError.unknownFlag flag)
    | some range =>
        if value ∈ range then validateFlags rangeMap rest
        else some (JsError.invalidFlagValue flag range value)

/-- `resetBackend(backendName)` (source lines 38-59).  `setBackendOk` is an
oracle for whether the awaited external `tf.setBackend(backendName)` call
succeeds or rejects; on rejection the exception propagates and the
`STATE.lastTFJSBackend` assignment on line 58 is skipped. -/
def resetBackend (setBackendOk : String → Bool) (w : World)
    (backendName : String) : Outcome :=
  if backendName ∈ w.engine.registryFactory then
    -- lines 51-55: if live, look up the factory, remove and re-register
    let step1 : World × List Effect :=
      if backendName ∈ w.engine.registry then
        ({ w with
            engine :=
              { registryFactory :=
                  w.engine.registryFactory.erase backendName ++ [backendName],
                registry := w.engine.registry.erase backendName } },
         [Effect.removeBackend backendName, Effect.registerBackend backendName])
      else (w, [])
    let w1 := step1.1
    -- line 57: await tf.setBackend(backendName)
    if setBackendOk backendName then
      { err := none,
        world :=
          { w1 with
            activeBackend := some backendName,
            engine :=
              { w1.engine with
                registry :=
                  if backendName ∈ w1.engine.registry then w1.engine.registry
                  else w1.engine.registry ++ [backendName] },
            -- line 58: STATE.lastTFJSBackend = `tfjs-${backendName}`
            state :=
              { w1.state with
                lastTFJSBackend := some ("tfjs-" ++ backendName) } },
        trace := step1.2 ++ [Effect.setBackend backendName] }
    else
      { err := some (JsError.setBackendFailed backendName),
        world := w1,
        trace := step1.2 ++ [Effect.setBackend backendName] }
  else if backendName = "webgpu" then
    -- lines 41-45: alert, fall back, refresh the UI, return without error
    { err := none,
      world :=
        { w with
          state :=
            { w.state with
              backend :=
                if jsTruthyStr w.state.lastTFJSBackend then
                  w.state.lastTFJSBackend.getD ""
                else "tfjs-webgl" } },
      trace := [Effect.alertShown, Effect.showBackendConfigs] }
  else
    -- line 47
    { err := some (JsError.backendNotRegistered backendName), world := w,
      trace := [] }

/-- Split a character list at every occurrence of `sep`, keeping empty
pieces, exactly as the JS `String.prototype.split` does for a single-character
separator: the result always has at least one piece, and splitting the empty
string yields one empty piece. -/
def splitOnChar (sep : Char) : List Char → List String
  | [] => [""]
  | c :: rest =>
    let r := splitOnChar sep rest
    if c = sep then "" :: r
    else
      match r with
      | [] => [String.mk [c]]
      | s :: tail => String.mk (c :: s.data) :: tail

/-- `backend.split('-')` from source line 103. -/
def jsSplitDash (s : String) : List String :=
  splitOnChar '-' s.data

/-- The `flagConfig` argument of `setBackendAndEnvFlags`: `null`/`undefined`,
a plain object (an ordered list of own enumerable string-keyed entries, the
order `for...in` visits them), or a non-null non-object carrying its `typeof`
string. -/
inductive FlagConfig
  | null
  | obj (entries : List (String × JSVal))
  | nonObject (typeName : String)
deriving DecidableEq, Repr

/-- `setBackendAndEnvFlags(flagConfig, backend)` (source lines 79-108).
`rangeMap` stands for the externally supplied
`TUNABLE_FLAG_VALUE_RANGE_MAP`.  The destructuring
`const [runtime, $backend] = backend.split('-')` is modelled with
`String.splitOn`; a missing second component (`undefined`) behaves in
`resetBackend` exactly like the string it is coerced to in the thrown
message, so it is represented by that string ("undefined" is never a
registered backend name and differs from "webgpu"). -/
def setBackendAndEnvFlags (rangeMap : List (String × List JSVal))
    (setBackendOk : String → Bool) (w : World) (flagConfig : FlagConfig)
    (backend : String) : Outcome :=
  match flagConfig with
  | .null => { err := none, world := w, trace := [] }
  | .nonObject t =>
      { err := some (JsError.invalidArgument t), world := w, trace := [] }
  | .obj entries =>
    match validateFlags rangeMap entries with
    | some e => { err := some e, world := w, trace := [] }
    | none =>
      -- line 101: tf.env().setFlags(flagConfig)
      let w1 := { w with envFlags := envSetFlags w.envFlags entries }
      let parts := jsSplitDash backend
      let runtime := parts.headD ""
      if runtime = "tfjs" then
        let name := (parts.drop 1).headD "undefined"
        let r := resetBackend setBackendOk w1 name
        { r with trace := Effect.setFlagsCall entries :: r.trace }
      else
        { err := none, world := w1, trace := [Effect.setFlagsCall entries] }

/-! ## Overlay renderer -/

/-- A detected 2-D landmark. -/
structure Keypoint where
  x : ℝ
  y : ℝ

/-- A detected face: the keypoint sequence produced by the external model
(the bounding box is never read by the live code). -/
structure Face where
  keypoints : List Keypoint

/-- The canvas-context operations the renderer can issue, in order. -/
inductive CanvasOp
  | beginPath
  | arc (x y radius startAngle endAngle : ℝ)
  | fill
  | drawImage (dx dy dWidth dHeight : ℝ)

/-- Whether an op is a `ctx.drawImage` call. -/
def CanvasOp.isDrawImage : CanvasOp → Bool
  | .drawImage _ _ _ _ => true
  | _ => false

/-- The per-face geometry of source lines 195-208: eye midpoint, Euclidean
eye distance, and the derived size and position of the glasses overlay. -/
structure EyeOverlayGeometry where
  centerX : ℝ
  centerY : ℝ
  eyeDistance : ℝ
  glassesWidth : ℝ
  glassesHeight : ℝ
  glassesX : ℝ
  glassesY : ℝ

/-- Compute the overlay geometry from the raw left-eye and right-eye
coordinate pairs, mirroring lines 195-208. -/
noncomputable def eyeOverlayGeometry (leftEye rightEye : ℝ × ℝ) :
    EyeOverlayGeometry :=
  let centerX := (leftEye.1 + rightEye.1) / 2
  let centerY := (leftEye.2 + rightEye.2) / 2
  let eyeDistance :=
    Real.sqrt ((rightEye.1 - leftEye.1) ^ 2 + (rightEye.2 - leftEye.2) ^ 2)
  let glassesWidth := eyeDistance * 3
  let glassesHeight := glassesWidth / 2
  let glassesX := centerX - glassesWidth / 1.7
  let glassesY := centerY - glassesHeight / 2
  { centerX := centerX, centerY := centerY, eyeDistance := eyeDistance,
    glassesWidth := glassesWidth, glassesHeight := glassesHeight,
    glassesX := glassesX, glassesY := glassesY }

/-- The canvas ops issued for one face by the `forEach` body of
`drawResults` (source lines 154-288).  `imgLoaded` models
`img.complete && img.naturalWidth > 0` for the shared overlay image.
`keypoints[1]` and `keypoints[2]` are `undefined` exactly when the index is
out of bounds, and the `leftEye && rightEye` guard tests definedness (a
defined coordinate pair is always truthy).  The `boundingBox` block is
commented out in the source; the live `if (showKeypoints)` block has an
empty body. -/
noncomputable def drawFaceOps (imgLoaded : Bool) (boundingBox : Bool)
    (showKeypoints : Bool) (face : Face) : List CanvasOp :=
  let keypoints := face.keypoints.map (fun kp => (kp.x, kp.y))
  let leftEye := keypoints[1]?
  let rightEye := keypoints[2]?
  (match leftEye, rightEye with
   | some l, some r =>
     let g := eyeOverlayGeometry l r
     if imgLoaded then
       [CanvasOp.drawImage g.glassesX g.glassesY g.glassesWidth
          g.glassesHeight]
     else
       [CanvasOp.beginPath,
        CanvasOp.arc l.1 l.2 3 0 (2 * Real.pi),
        CanvasOp.arc r.1 r.2 3 0 (2 * Real.pi),
        CanvasOp.fill]
   | _, _ => []) ++
  (if showKeypoints then [] else [])

/-- `drawResults(ctx, faces, boundingBox, showKeypoints)` (source lines
153-289): the concatenated canvas ops of the faces, in list order.  The
canvas context is replaced by the returned op sequence. -/
noncomputable def drawResults (imgLoaded : Bool) (faces : List Face)
    (boundingBox : Bool) (showKeypoints : Bool) : List CanvasOp :=
  (faces.map (drawFaceOps imgLoaded boundingBox showKeypoints)).flatten

/-! ## Shared classifiers and concrete instances -/

/-- Whether a thrown error is the `UnknownFlag` error. -/
def isUnknownFlagErr : Option JsError → Bool
  | some (JsError.unknownFlag _) => true
  | _ => false

/-- Whether an error is one of the three thrown before the
`tf.env().setFlags` call: `InvalidArgument`, `UnknownFlag` or
`InvalidFlagValue`. -/
def JsError.isPreFlagsErr : JsError → Bool
  | .invalidArgument _ => true
  | .unknownFlag _ => true
  | .invalidFlagValue _ _ _ => true
  | _ => false

/-- Whether an error is the `BackendNotRegistered` error. -/
def JsError.isBackendNotRegisteredErr : JsError → Bool
  | .backendNotRegistered _ => true
  | _ => false

/-- Whether an effect is the `showBackendConfigs` UI refresh call. -/
def Effect.isShowBackendConfigs : Effect → Bool
  | .showBackendConfigs => true
  | _ => false

/-- Whether an effect mutates the backend registries or the active backend
(a `removeBackend`, `registerBackend` or `setBackend` call). -/
def Effect.isRegistryMutation : Effect → Bool
  | .removeBackend _ => true
  | .registerBackend _ => true
  | .setBackend _ => true
  | _ => false

/-- A sample allow-list standing for `TUNABLE_FLAG_VALUE_RANGE_MAP` in the
concrete instances below. -/
def sampleRangeMap : List (String × List JSVal) :=
  [("WEBGL_PACK", [JSVal.vBool true, JSVal.vBool false]),
   ("WEBGL_VERSION", [JSVal.vNum 1, JSVal.vNum 2])]

/-- A sample engine world: webgl has a factory and a live instance, cpu only
a factory, webgpu nothing; no backend recorded yet. -/
def sampleWorld : World :=
  { engine := { registryFactory := ["webgl", "cpu"], registry := ["webgl"] },
    activeBackend := some "webgl",
    envFlags := [],
    state := { backend := "tfjs-webgl", lastTFJSBackend := none } }

/-- A face whose left-eye keypoint (index 1) is (10,10) and right-eye
keypoint (index 2) is (30,10). -/
noncomputable def sampleFace : Face :=
  { keypoints := [{ x := 0, y := 0 }, { x := 10, y := 10 },
      { x := 30, y := 10 }] }

/-- A face whose keypoint sequence has no entry at the eye indices. -/
noncomputable def faceMissingEyes : Face :=
  { keypoints := [{ x := 5, y := 6 }] }

/-! ## Validation lemmas -/

/-- If some entry of the config has a key outside the allow-list, validation
fails, and the error it reports is determined by the first offending entry
in iteration order: the config splits as `pre ++ p :: suf` where every entry
of `pre` is allow-listed with an in-range value, and the reported error is
the `UnknownFlag` error of `p`'s key when that key is not allow-listed, or
`p`'s own `InvalidFlagValue` error when `p`'s key is allow-listed but its
value is out of range. -/
theorem validateFlags_first_offender (m : List (String × List JSVal))
    (entries : List (String × JSVal))
    (h : ∃ p ∈ entries, lookupFlag m p.1 = none) :
    ∃ pre p suf, entries = pre ++ p :: suf ∧
      (∀ q ∈ pre, ∃ rg, lookupFlag m q.1 = some rg ∧ q.2 ∈ rg) ∧
      ((lookupFlag m p.1 = none ∧
          validateFlags m entries = some (JsError.unknownFlag p.1)) ∨
       (∃ rg, lookupFlag m p.1 = some rg ∧ p.2 ∉ rg ∧
          validateFlags m entries =
            some (JsError.invalidFlagValue p.1 rg p.2))) := by
  induction entries with
  | nil =>
    rcases h with ⟨p, hp, _⟩
    cases hp
  | cons hd tl ih =>
    rcases hd with ⟨flag, value⟩
    cases hm : lookupFlag m flag with
    | none =>
      refine ⟨[], (flag, value), tl, rfl, by simp, Or.inl ⟨hm, ?_⟩⟩
      simp [validateFlags, hm]
    | some rg =>
      by_cases hv : value ∈ rg
      · have htl : ∃ p ∈ tl, lookupFlag m p.1 = none := by
          rcases h with ⟨p, hp, hnone⟩
          rcases List.mem_cons.mp hp with hhd | hmem
          · rw [hhd] at hnone
            rw [hm] at hnone
            cases hnone
          · exact ⟨p, hmem, hnone⟩
        rcases ih htl with ⟨pre, p, suf, heq, hpre, hdisj⟩
        refine ⟨(flag, value) :: pre, p, suf, by rw [heq]; rfl, ?_, ?_⟩
        · intro q hq
          rcases List.mem_cons.mp hq with hhd | hmem
          · exact ⟨rg, by rw [hhd]; exact hm, by rw [hhd]; exact hv⟩
          · exact hpre q hmem
        · have hstep : validateFlags m ((flag, value) :: tl) =
              validateFlags m tl := by simp [validateFlags, hm, hv]
          rcases hdisj with ⟨hnone, hval⟩ | ⟨rg2, hsome, hnot, hval⟩
          · exact Or.inl ⟨hnone, by rw [hstep, hval]⟩
          · exact Or.inr ⟨rg2, hsome, hnot, by rw [hstep, hval]⟩
      · refine ⟨[], (flag, value), tl, rfl, by simp,
          Or.inr ⟨rg, hm, hv, ?_⟩⟩
        simp [validateFlags, hm, hv]

/-- If every key of the config is allow-listed but some entry holds a value
outside its key's range, validation fails with the `InvalidFlagValue` error
of such an entry. -/
theorem validateFlags_of_invalid (m : List (String × List JSVal))
    (entries : List (String × JSVal))
    (hall : ∀ p ∈ entries, (lookupFlag m p.1).isSome)
    (hbad : ∃ p ∈ entries, ∃ rg, lookupFlag m p.1 = some rg ∧ p.2 ∉ rg) :
    ∃ f rg v, lookupFlag m f = some rg ∧ v ∉ rg ∧
      validateFlags m entries = some (JsError.invalidFlagValue f rg v) := by
  induction entries with
  | nil =>
    rcases hbad with ⟨p, hp, _⟩
    cases hp
  | cons hd tl ih =>
    rcases hd with ⟨flag, value⟩
    rcases Option.isSome_iff_exists.mp
      (hall (flag, value) (List.mem_cons_self _ _)) with ⟨rg, hm⟩
    by_cases hv : value ∈ rg
    · have hbad2 : ∃ p ∈ tl, ∃ rg2, lookupFlag m p.1 = some rg2 ∧
          p.2 ∉ rg2 := by
        rcases hbad with ⟨p, hp, rg2, hm2, hnot⟩
        rcases List.mem_cons.mp hp with hhd | hmem
        · rw [hhd] at hm2 hnot
          rw [hm] at hm2
          cases hm2
          exact absurd hv hnot
        · exact ⟨p, hmem, rg2, hm2, hnot⟩
      rcases ih (fun p hp => hall p (List.mem_cons_of_mem _ hp)) hbad2 with
        ⟨f, rg2, v, h1, h2, h3⟩
      exact ⟨f, rg2, v, h1, h2, by simp [validateFlags, hm, hv, h3]⟩
    · exact ⟨flag, rg, value, hm, hv, by simp [validateFlags, hm, hv]⟩

/-- Every error the validation loop reports is an `UnknownFlag` or
`InvalidFlagValue` error. -/
theorem validateFlags_err_isPreFlags (m : List (String × List JSVal))
    (entries : List (String × JSVal)) (e : JsError)
    (h : validateFlags m entries = some e) : e.isPreFlagsErr = true := by
  induction entries with
  | nil => cases h
  | cons hd tl ih =>
    rcases hd with ⟨flag, value⟩
    cases hm : lookupFlag m flag with
    | none =>
      simp [validateFlags, hm] at h
      subst h
      rfl
    | some rg =>
      by_cases hv : value ∈ rg
      · simp [validateFlags, hm, hv] at h
        exact ih h
      · simp [validateFlags, hm, hv] at h
        subst h
        rfl

/-! ## resetBackend lemmas -/

/-- `resetBackend` never throws the three flag-validation errors. -/
theorem resetBackend_err_not_preFlags (setBackendOk : String → Bool)
    (w : World) (backendName : String) (e : JsError)
    (h : (resetBackend setBackendOk w backendName).err = some e) :
    e.isPreFlagsErr = false := by
  rw [resetBackend] at h
  by_cases h1 : backendName ∈ w.engine.registryFactory
  · rw [if_pos h1] at h
    by_cases h2 : setBackendOk backendName
    · simp [h2] at h
    · simp [h2] at h
      rw [← h]
      rfl
  · rw [if_neg h1] at h
    by_cases h3 : backendName = "webgpu"
    · simp [h3] at h
    · simp [h3] at h
      rw [← h]
      rfl

/-- When `resetBackend` throws the `BackendNotRegistered` error, it has
performed no side effect at all: the world is unchanged and the trace is
empty. -/
theorem resetBackend_backendNotRegistered_noop (setBackendOk : String → Bool)
    (w : World) (backendName : String) (e : JsError)
    (herr : (resetBackend setBackendOk w backendName).err = some e)
    (hkind : e.isBackendNotRegisteredErr = true) :
    resetBackend setBackendOk w backendName =
      { err := some e, world := w, trace := [] } := by
  rw [resetBackend] at herr ⊢
  by_cases h1 : backendName ∈ w.engine.registryFactory
  · rw [if_pos h1] at herr ⊢
    by_cases h2 : setBackendOk backendName
    · simp [h2] at herr
    · simp [h2] at herr ⊢
      rw [← herr] at hkind
      cases hkind
  · rw [if_neg h1] at herr ⊢
    by_cases h3 : backendName = "webgpu"
    · simp [h3] at herr
    · simp [h3] at herr ⊢
      exact herr

/-- When webgpu has no registered factory, `resetBackend "webgpu"` takes the
non-fatal fallback path: no error, an alert and exactly one UI refresh, and
`STATE.backend` set to the last recorded tfjs backend when one is recorded
(truthy), else `"tfjs-webgl"`. -/
theorem resetBackend_webgpu_unregistered (setBackendOk : String → Bool)
    (w : World) (h : "webgpu" ∉ w.engine.registryFactory) :
    resetBackend setBackendOk w "webgpu" =
      { err := none,
        world :=
          { w with
            state :=
              { w.state with
                backend :=
                  if jsTruthyStr w.state.lastTFJSBackend then
                    w.state.lastTFJSBackend.getD ""
                  else "tfjs-webgl" } },
        trace := [Effect.alertShown, Effect.showBackendConfigs] } := by
  rw [resetBackend, if_neg h, if_pos rfl]

/-- When the backend has both a registered factory and a live registry
entry, the reset path traces, in order: remove, re-register, activate —
whether or not the activation succeeds. -/
theorem resetBackend_live_trace (setBackendOk : String → Bool) (w : World)
    (n : String) (hfac : n ∈ w.engine.registryFactory)
    (hlive : n ∈ w.engine.registry) :
    (resetBackend setBackendOk w n).trace =
      [Effect.removeBackend n, Effect.registerBackend n,
       Effect.setBackend n] := by
  rw [resetBackend, if_pos hfac]
  by_cases hok : setBackendOk n <;> simp [hok, hlive]

/-- Unfolding `setBackendAndEnvFlags` on a config that validates, for a
backend string whose runtime component is `"tfjs"`: the flags are applied
and then `resetBackend` runs on the second component. -/
theorem setBackendAndEnvFlags_valid_tfjs
    (rangeMap : List (String × List JSVal)) (setBackendOk : String → Bool)
    (w : World) (entries : List (String × JSVal)) (backend : String)
    (hv : validateFlags rangeMap entries = none)
    (hr : (jsSplitDash backend).headD "" = "tfjs") :
    setBackendAndEnvFlags rangeMap setBackendOk w (FlagConfig.obj entries)
        backend =
      { resetBackend setBackendOk
          { w with envFlags := envSetFlags w.envFlags entries }
          (((jsSplitDash backend).drop 1).headD "undefined") with
        trace := Effect.setFlagsCall entries ::
          (resetBackend setBackendOk
            { w with envFlags := envSetFlags w.envFlags entries }
            (((jsSplitDash backend).drop 1).headD "undefined")).trace } := by
  simp only [setBackendAndEnvFlags, hv]
  rw [if_pos hr]

/-- Unfolding `setBackendAndEnvFlags` on a config that validates, for a
backend string whose runtime component is not `"tfjs"`: the flags are
applied and no reset runs. -/
theorem setBackendAndEnvFlags_valid_nontfjs
    (rangeMap : List (String × List JSVal)) (setBackendOk : String → Bool)
    (w : World) (entries : List (String × JSVal)) (backend : String)
    (hv : validateFlags rangeMap entries = none)
    (hr : ¬ (jsSplitDash backend).headD "" = "tfjs") :
    setBackendAndEnvFlags rangeMap setBackendOk w (FlagConfig.obj entries)
        backend =
      { err := none,
        world := { w with envFlags := envSetFlags w.envFlags entries },
        trace := [Effect.setFlagsCall entries] } := by
  simp only [setBackendAndEnvFlags, hv]
  rw [if_neg hr]

/-! ## C1 -/

/-- C1: the claim as frozen is false.  The config
`{WEBGL_PACK: 3, NOT_A_FLAG: true}` contains a key (`NOT_A_FLAG`) outside
the allow-list, yet `setBackendAndEnvFlags` throws the `InvalidFlagValue`
error for the earlier entry `WEBGL_PACK`, not the `UnknownFlag` error: the
validation loop reports the first offending entry in iteration order. -/
theorem c1_counterexample :
    (∃ p ∈ [("WEBGL_PACK", JSVal.vNum 3), ("NOT_A_FLAG", JSVal.vBool true)],
        lookupFlag sampleRangeMap p.1 = none) ∧
    (setBackendAndEnvFlags sampleRangeMap (fun _ => true) sampleWorld
        (FlagConfig.obj [("WEBGL_PACK", JSVal.vNum 3),
          ("NOT_A_FLAG", JSVal.vBool true)]) "tfjs-webgl").err =
      some (JsError.invalidFlagValue "WEBGL_PACK"
        [JSVal.vBool true, JSVal.vBool false] (JSVal.vNum 3)) ∧
    isUnknownFlagErr
      (setBackendAndEnvFlags sampleRangeMap (fun _ => true) sampleWorld
        (FlagConfig.obj [("WEBGL_PACK", JSVal.vNum 3),
          ("NOT_A_FLAG", JSVal.vBool true)]) "tfjs-webgl").err = false := by
  refine ⟨?_, by decide, by decide⟩
  decide

/-- C1 (amended): for every flag config containing some key outside the
allow-list, `setBackendAndEnvFlags` throws before any mutation — the world
is returned unchanged and the trace is empty (`tf.env().setFlags` is not
called and no backend is reset) — and the thrown error is determined by the
first offending entry in iteration order: the config splits as
`pre ++ p :: suf` with every entry of `pre` allow-listed and in range, and
the error is the `UnknownFlag` error of `p`'s key when that key is not
allow-listed, or `p`'s own `InvalidFlagValue` error when `p`'s key is
allow-listed but its value is out of range. -/
theorem c1_unknown_key_rejected_before_mutation
    (rangeMap : List (String × List JSVal)) (setBackendOk : String → Bool)
    (w : World) (entries : List (String × JSVal)) (backend : String)
    (h : ∃ p ∈ entries, lookupFlag rangeMap p.1 = none) :
    ∃ pre p suf, entries = pre ++ p :: suf ∧
      (∀ q ∈ pre, ∃ rg, lookupFlag rangeMap q.1 = some rg ∧ q.2 ∈ rg) ∧
      ((lookupFlag rangeMap p.1 = none ∧
          setBackendAndEnvFlags rangeMap setBackendOk w
              (FlagConfig.obj entries) backend =
            { err := some (JsError.unknownFlag p.1), world := w,
              trace := [] }) ∨
       (∃ rg, lookupFlag rangeMap p.1 = some rg ∧ p.2 ∉ rg ∧
          setBackendAndEnvFlags rangeMap setBackendOk w
              (FlagConfig.obj entries) backend =
            { err := some (JsError.invalidFlagValue p.1 rg p.2), world := w,
              trace := [] })) := by
  rcases validateFlags_first_offender rangeMap entries h with
    ⟨pre, p, suf, heq, hpre, hdisj⟩
  refine ⟨pre, p, suf, heq, hpre, ?_⟩
  rcases hdisj with ⟨hnone, hval⟩ | ⟨rg, hsome, hnot, hval⟩
  · exact Or.inl ⟨hnone, by simp [setBackendAndEnvFlags, hval]⟩
  · exact Or.inr ⟨rg, hsome, hnot, by simp [setBackendAndEnvFlags, hval]⟩

/-- C1 witness: the amended theorem applied to the config
`{WEBGL_PACK: 3, NOT_A_FLAG: true}`, whose first offending entry is the
out-of-range `WEBGL_PACK` value, not the unknown key. -/
theorem c1_witness :
    ∃ pre p suf,
      [("WEBGL_PACK", JSVal.vNum 3), ("NOT_A_FLAG", JSVal.vBool true)] =
        pre ++ p :: suf ∧
      (∀ q ∈ pre, ∃ rg, lookupFlag sampleRangeMap q.1 = some rg ∧
        q.2 ∈ rg) ∧
      ((lookupFlag sampleRangeMap p.1 = none ∧
          setBackendAndEnvFlags sampleRangeMap (fun _ => true) sampleWorld
              (FlagConfig.obj [("WEBGL_PACK", JSVal.vNum 3),
                ("NOT_A_FLAG", JSVal.vBool true)]) "tfjs-webgl" =
            { err := some (JsError.unknownFlag p.1), world := sampleWorld,
              trace := [] }) ∨
       (∃ rg, lookupFlag sampleRangeMap p.1 = some rg ∧ p.2 ∉ rg ∧
          setBackendAndEnvFlags sampleRangeMap (fun _ => true) sampleWorld
              (FlagConfig.obj [("WEBGL_PACK", JSVal.vNum 3),
                ("NOT_A_FLAG", JSVal.vBool true)]) "tfjs-webgl" =
            { err := some (JsError.invalidFlagValue p.1 rg p.2),
              world := sampleWorld, trace := [] })) :=
  c1_unknown_key_rejected_before_mutation sampleRangeMap (fun _ => true)
    sampleWorld [("WEBGL_PACK", JSVal.vNum 3),
      ("NOT_A_FLAG", JSVal.vBool true)] "tfjs-webgl" (by decide)

/-! ## C2 -/

/-- C2: for every flag config whose keys are all allow-listed but where some
entry holds a value outside its key's allowed range, `setBackendAndEnvFlags`
throws the `InvalidFlagValue` error of such an entry and performs no
mutation: the world is returned unchanged and the trace is empty (no
`tf.env().setFlags` call, no backend reset). -/
theorem c2_invalid_value_rejected_before_mutation
    (rangeMap : List (String × List JSVal)) (setBackendOk : String → Bool)
    (w : World) (entries : List (String × JSVal)) (backend : String)
    (hall : ∀ p ∈ entries, (lookupFlag rangeMap p.1).isSome)
    (hbad : ∃ p ∈ entries, ∃ rg, lookupFlag rangeMap p.1 = some rg ∧
      p.2 ∉ rg) :
    ∃ f rg v, lookupFlag rangeMap f = some rg ∧ v ∉ rg ∧
      setBackendAndEnvFlags rangeMap setBackendOk w (FlagConfig.obj entries)
          backend =
        { err := some (JsError.invalidFlagValue f rg v), world := w,
          trace := [] } := by
  rcases validateFlags_of_invalid rangeMap entries hall hbad with
    ⟨f, rg, v, h1, h2, h3⟩
  exact ⟨f, rg, v, h1, h2, by simp [setBackendAndEnvFlags, h3]⟩

/-- C2 witness: the theorem applied to the config `{WEBGL_VERSION: 7}`. -/
theorem c2_witness :
    ∃ f rg v, lookupFlag sampleRangeMap f = some rg ∧ v ∉ rg ∧
      setBackendAndEnvFlags sampleRangeMap (fun _ => true) sampleWorld
          (FlagConfig.obj [("WEBGL_VERSION", JSVal.vNum 7)]) "tfjs-webgl" =
        { err := some (JsError.invalidFlagValue f rg v),
          world := sampleWorld, trace := [] } :=
  c2_invalid_value_rejected_before_mutation sampleRangeMap (fun _ => true)
    sampleWorld [("WEBGL_VERSION", JSVal.vNum 7)] "tfjs-webgl" (by decide)
    (by decide)

/-! ## C3 -/

/-- C3: the claim as frozen is false for `BackendNotRegistered`.  With the
valid config `{WEBGL_PACK: true}` and backend `"tfjs-nonsense"` (where
`"nonsense"` is not a registered factory), the call throws the
`BackendNotRegistered` error, yet `tf.env().setFlags` has already run: the
environment flag store differs from its value before the call and the trace
is not empty. -/
theorem c3_counterexample :
    (setBackendAndEnvFlags sampleRangeMap (fun _ => true) sampleWorld
        (FlagConfig.obj [("WEBGL_PACK", JSVal.vBool true)])
        "tfjs-nonsense").err =
      some (JsError.backendNotRegistered "nonsense") ∧
    (setBackendAndEnvFlags sampleRangeMap (fun _ => true) sampleWorld
        (FlagConfig.obj [("WEBGL_PACK", JSVal.vBool true)])
        "tfjs-nonsense").world.envFlags =
      [("WEBGL_PACK", JSVal.vBool true)] ∧
    sampleWorld.envFlags = [] ∧
    (setBackendAndEnvFlags sampleRangeMap (fun _ => true) sampleWorld
        (FlagConfig.obj [("WEBGL_PACK", JSVal.vBool true)])
        "tfjs-nonsense").trace =
      [Effect.setFlagsCall [("WEBGL_PACK", JSVal.vBool true)]] := by
  refine ⟨by decide, by decide, rfl, by decide⟩

/-- C3 (amended): whenever `setBackendAndEnvFlags` throws one of the four
errors, then: for `InvalidArgument`, `UnknownFlag` and `InvalidFlagValue`
the throw happens before any mutating side effect (the world is unchanged
and the trace empty), while for `BackendNotRegistered` the environment
flags have already been applied (`tf.env().setFlags` ran on the config) but
the backend registries, the active backend and the STATE record are
unchanged and no registry-mutating call was made. -/
theorem c3_four_errors_mutation_boundary
    (rangeMap : List (String × List JSVal)) (setBackendOk : String → Bool)
    (w : World) (cfg : FlagConfig) (backend : String) (e : JsError)
    (h : (setBackendAndEnvFlags rangeMap setBackendOk w cfg backend).err =
      some e) :
    (e.isPreFlagsErr = true →
      setBackendAndEnvFlags rangeMap setBackendOk w cfg backend =
        { err := some e, world := w, trace := [] }) ∧
    (e.isBackendNotRegisteredErr = true →
      ∃ entries, cfg = FlagConfig.obj entries ∧
        setBackendAndEnvFlags rangeMap setBackendOk w cfg backend =
          { err := some e,
            world := { w with envFlags := envSetFlags w.envFlags entries },
            trace := [Effect.setFlagsCall entries] }) := by
  cases cfg with
  | null => simp [setBackendAndEnvFlags] at h
  | nonObject t =>
    rw [setBackendAndEnvFlags] at h ⊢
    have h2 : some (JsError.invalidArgument t) = some e := h
    cases h2
    exact ⟨fun _ => rfl,
      fun hk => by simp [JsError.isBackendNotRegisteredErr] at hk⟩
  | obj entries =>
    cases hv : validateFlags rangeMap entries with
    | some e0 =>
      rw [setBackendAndEnvFlags, hv] at h ⊢
      have h2 : some e0 = some e := h
      cases h2
      refine ⟨fun _ => rfl, fun hk => ?_⟩
      have hp := validateFlags_err_isPreFlags rangeMap entries e hv
      cases e <;>
        simp [JsError.isPreFlagsErr, JsError.isBackendNotRegisteredErr]
          at hp hk
    | none =>
      by_cases hr : (jsSplitDash backend).headD "" = "tfjs"
      · have heq := setBackendAndEnvFlags_valid_tfjs rangeMap setBackendOk w
          entries backend hv hr
        rw [heq] at h
        have h2 : (resetBackend setBackendOk
            { w with envFlags := envSetFlags w.envFlags entries }
            (((jsSplitDash backend).drop 1).headD "undefined")).err =
            some e := h
        refine ⟨fun hp => ?_, fun hk => ?_⟩
        · rw [resetBackend_err_not_preFlags setBackendOk
            { w with envFlags := envSetFlags w.envFlags entries }
            (((jsSplitDash backend).drop 1).headD "undefined") e h2] at hp
          exact absurd hp (by decide)
        · refine ⟨entries, rfl, ?_⟩
          rw [heq, resetBackend_backendNotRegistered_noop setBackendOk
            { w with envFlags := envSetFlags w.envFlags entries }
            (((jsSplitDash backend).drop 1).headD "undefined") e h2 hk]
      · rw [setBackendAndEnvFlags_valid_nontfjs rangeMap setBackendOk w
          entries backend hv hr] at h
        have h2 : (none : Option JsError) = some e := h
        cases h2

/-- C3 witness: the amended theorem applied to the config
`{NOT_A_FLAG: false}` on the sample world (the `UnknownFlag` case of the
mutation boundary). -/
theorem c3_witness :
    ((JsError.unknownFlag "NOT_A_FLAG").isPreFlagsErr = true →
      setBackendAndEnvFlags sampleRangeMap (fun _ => true) sampleWorld
          (FlagConfig.obj [("NOT_A_FLAG", JSVal.vBool false)])
          "tfjs-webgl" =
        { err := some (JsError.unknownFlag "NOT_A_FLAG"),
          world := sampleWorld, trace := [] }) ∧
    ((JsError.unknownFlag "NOT_A_FLAG").isBackendNotRegisteredErr = true →
      ∃ entries,
        FlagConfig.obj [("NOT_A_FLAG", JSVal.vBool false)] =
          FlagConfig.obj entries ∧
        setBackendAndEnvFlags sampleRangeMap (fun _ => true) sampleWorld
            (FlagConfig.obj [("NOT_A_FLAG", JSVal.vBool false)])
            "tfjs-webgl" =
          { err := some (JsError.unknownFlag "NOT_A_FLAG"),
            world :=
              { sampleWorld with
                envFlags := envSetFlags sampleWorld.envFlags entries },
            trace := [Effect.setFlagsCall entries] }) :=
  c3_four_errors_mutation_boundary sampleRangeMap (fun _ => true)
    sampleWorld (FlagConfig.obj [("NOT_A_FLAG", JSVal.vBool false)])
    "tfjs-webgl" (JsError.unknownFlag "NOT_A_FLAG") (by decide)

/-! ## C4 -/

/-- C4: with a valid config and backend `"tfjs-webgpu"` on a world where
`"webgpu"` has no registered factory, the call throws no error; it applies
the flags, sets `STATE.backend` to the last recorded tfjs backend when one
is recorded, else `"tfjs-webgl"`, calls the UI refresh hook
`showBackendConfigs` exactly once, and performs no `removeBackend`,
`registerBackend` or `setBackend` call (registries, active backend and
`STATE.lastTFJSBackend` are untouched). -/
theorem c4_webgpu_graceful_fallback
    (rangeMap : List (String × List JSVal)) (setBackendOk : String → Bool)
    (w : World) (entries : List (String × JSVal))
    (hvalid : validateFlags rangeMap entries = none)
    (hnoreg : "webgpu" ∉ w.engine.registryFactory) :
    setBackendAndEnvFlags rangeMap setBackendOk w (FlagConfig.obj entries)
        "tfjs-webgpu" =
      { err := none,
        world :=
          { w with
            envFlags := envSetFlags w.envFlags entries,
            state :=
              { w.state with
                backend :=
                  if jsTruthyStr w.state.lastTFJSBackend then
                    w.state.lastTFJSBackend.getD ""
                  else "tfjs-webgl" } },
        trace := [Effect.setFlagsCall entries, Effect.alertShown,
          Effect.showBackendConfigs] } ∧
    (setBackendAndEnvFlags rangeMap setBackendOk w (FlagConfig.obj entries)
        "tfjs-webgpu").trace.filter Effect.isShowBackendConfigs =
      [Effect.showBackendConfigs] ∧
    (setBackendAndEnvFlags rangeMap setBackendOk w (FlagConfig.obj entries)
        "tfjs-webgpu").trace.filter Effect.isRegistryMutation = [] := by
  have hr : (jsSplitDash "tfjs-webgpu").headD "" = "tfjs" := by decide
  have hname : ((jsSplitDash "tfjs-webgpu").drop 1).headD "undefined" =
      "webgpu" := by decide
  have hE : setBackendAndEnvFlags rangeMap setBackendOk w
      (FlagConfig.obj entries) "tfjs-webgpu" =
      { err := none,
        world :=
          { w with
            envFlags := envSetFlags w.envFlags entries,
            state :=
              { w.state with
                backend :=
                  if jsTruthyStr w.state.lastTFJSBackend then
                    w.state.lastTFJSBackend.getD ""
                  else "tfjs-webgl" } },
        trace := [Effect.setFlagsCall entries, Effect.alertShown,
          Effect.showBackendConfigs] } := by
    rw [setBackendAndEnvFlags_valid_tfjs rangeMap setBackendOk w entries
      "tfjs-webgpu" hvalid hr, hname,
      resetBackend_webgpu_unregistered setBackendOk
        { w with envFlags := envSetFlags w.envFlags entries } hnoreg]
  have htrace : (setBackendAndEnvFlags rangeMap setBackendOk w
      (FlagConfig.obj entries) "tfjs-webgpu").trace =
      [Effect.setFlagsCall entries, Effect.alertShown,
        Effect.showBackendConfigs] := by rw [hE]
  refine ⟨hE, ?_, ?_⟩ <;>
    simp [htrace, Effect.isShowBackendConfigs, Effect.isRegistryMutation]

/-- C4 witness: the theorem applied to the sample world, where webgpu has no
factory and no backend is recorded yet, with the config
`{WEBGL_PACK: true}`. -/
theorem c4_witness :
    setBackendAndEnvFlags sampleRangeMap (fun _ => true) sampleWorld
        (FlagConfig.obj [("WEBGL_PACK", JSVal.vBool true)]) "tfjs-webgpu" =
      { err := none,
        world :=
          { sampleWorld with
            envFlags := envSetFlags sampleWorld.envFlags
              [("WEBGL_PACK", JSVal.vBool true)],
            state :=
              { sampleWorld.state with
                backend :=
                  if jsTruthyStr sampleWorld.state.lastTFJSBackend then
                    sampleWorld.state.lastTFJSBackend.getD ""
                  else "tfjs-webgl" } },
        trace := [Effect.setFlagsCall [("WEBGL_PACK", JSVal.vBool true)],
          Effect.alertShown, Effect.showBackendConfigs] } ∧
    (setBackendAndEnvFlags sampleRangeMap (fun _ => true) sampleWorld
        (FlagConfig.obj [("WEBGL_PACK", JSVal.vBool true)])
        "tfjs-webgpu").trace.filter Effect.isShowBackendConfigs =
      [Effect.showBackendConfigs] ∧
    (setBackendAndEnvFlags sampleRangeMap (fun _ => true) sampleWorld
        (FlagConfig.obj [("WEBGL_PACK", JSVal.vBool true)])
        "tfjs-webgpu").trace.filter Effect.isRegistryMutation = [] :=
  c4_webgpu_graceful_fallback sampleRangeMap (fun _ => true) sampleWorld
    [("WEBGL_PACK", JSVal.vBool true)] (by decide) (by decide)

/-! ## C5 -/

/-- C5: with a valid config and backend `"tfjs-webgl"` on a world where
`"webgl"` has both a registered factory and a live registry entry, the call
traces, after the flags are applied, exactly: remove `"webgl"`, re-register
`"webgl"`, then activate `"webgl"` — removal and re-registration both happen
before activation. -/
theorem c5_reset_removes_and_reregisters_before_activation
    (rangeMap : List (String × List JSVal)) (setBackendOk : String → Bool)
    (w : World) (entries : List (String × JSVal))
    (hvalid : validateFlags rangeMap entries = none)
    (hfac : "webgl" ∈ w.engine.registryFactory)
    (hlive : "webgl" ∈ w.engine.registry) :
    (setBackendAndEnvFlags rangeMap setBackendOk w (FlagConfig.obj entries)
        "tfjs-webgl").trace =
      [Effect.setFlagsCall entries, Effect.removeBackend "webgl",
       Effect.registerBackend "webgl", Effect.setBackend "webgl"] := by
  have hr : (jsSplitDash "tfjs-webgl").headD "" = "tfjs" := by decide
  have hname : ((jsSplitDash "tfjs-webgl").drop 1).headD "undefined" =
      "webgl" := by decide
  rw [setBackendAndEnvFlags_valid_tfjs rangeMap setBackendOk w entries
    "tfjs-webgl" hvalid hr, hname]
  show Effect.setFlagsCall entries ::
      (resetBackend setBackendOk
        { w with envFlags := envSetFlags w.envFlags entries }
        "webgl").trace = _
  rw [resetBackend_live_trace setBackendOk
    { w with envFlags := envSetFlags w.envFlags entries } "webgl" hfac hlive]

/-- C5 witness: the theorem applied to the sample world (webgl registered
and live) with the config `{WEBGL_PACK: true}`. -/
theorem c5_witness :
    (setBackendAndEnvFlags sampleRangeMap (fun _ => true) sampleWorld
        (FlagConfig.obj [("WEBGL_PACK", JSVal.vBool true)])
        "tfjs-webgl").trace =
      [Effect.setFlagsCall [("WEBGL_PACK", JSVal.vBool true)],
       Effect.removeBackend "webgl", Effect.registerBackend "webgl",
       Effect.setBackend "webgl"] :=
  c5_reset_removes_and_reregisters_before_activation sampleRangeMap
    (fun _ => true) sampleWorld [("WEBGL_PACK", JSVal.vBool true)]
    (by decide) (by decide) (by decide)

/-! ## C6 -/

/-- C6: for every backend string, `setBackendAndEnvFlags(null, backend)`
returns without throwing and leaves everything unchanged: the world (flags,
registries, active backend and STATE record) is returned as it was and the
trace is empty. -/
theorem c6_null_config_is_noop (rangeMap : List (String × List JSVal))
    (setBackendOk : String → Bool) (w : World) (backend : String) :
    setBackendAndEnvFlags rangeMap setBackendOk w FlagConfig.null backend =
      { err := none, world := w, trace := [] } := rfl

/-- C6 witness: a null config with a non-tfjs backend string on the sample
world. -/
theorem c6_witness :
    setBackendAndEnvFlags sampleRangeMap (fun _ => true) sampleWorld
        FlagConfig.null "mediapipe-gpu" =
      { err := none, world := sampleWorld, trace := [] } :=
  c6_null_config_is_noop sampleRangeMap (fun _ => true) sampleWorld
    "mediapipe-gpu"

/-! ## C7 -/

/-- C7: for a face whose left-eye keypoint is (10,10) and right-eye keypoint
is (30,10), the renderer computes eye distance 20, overlay width 60, height
30 and eye center (20,10); and when the shared overlay image is not loaded,
it draws exactly a path begin, two filled circles (arcs of radius 3, full
angle) centered at (10,10) and (30,10) and a fill — and performs no
`drawImage` call — regardless of the `boundingBox` and `showKeypoints`
flags. -/
theorem c7_concrete_face_overlay (boundingBox showKeypoints : Bool) :
    (eyeOverlayGeometry (10, 10) (30, 10)).eyeDistance = 20 ∧
    (eyeOverlayGeometry (10, 10) (30, 10)).glassesWidth = 60 ∧
    (eyeOverlayGeometry (10, 10) (30, 10)).glassesHeight = 30 ∧
    (eyeOverlayGeometry (10, 10) (30, 10)).centerX = 20 ∧
    (eyeOverlayGeometry (10, 10) (30, 10)).centerY = 10 ∧
    drawResults false [sampleFace] boundingBox showKeypoints =
      [CanvasOp.beginPath, CanvasOp.arc 10 10 3 0 (2 * Real.pi),
       CanvasOp.arc 30 10 3 0 (2 * Real.pi), CanvasOp.fill] ∧
    (drawResults false [sampleFace] boundingBox showKeypoints).filter
      CanvasOp.isDrawImage = [] := by
  have h400 : Real.sqrt 400 = 20 := by
    rw [show (400:ℝ) = 20 ^ 2 by norm_num]
    exact Real.sqrt_sq (by norm_num)
  have hlist : drawResults false [sampleFace] boundingBox showKeypoints =
      [CanvasOp.beginPath, CanvasOp.arc 10 10 3 0 (2 * Real.pi),
       CanvasOp.arc 30 10 3 0 (2 * Real.pi), CanvasOp.fill] := by
    simp [drawResults, drawFaceOps, sampleFace]
  refine ⟨?_, ?_, ?_, ?_, ?_, hlist, ?_⟩
  · simp [eyeOverlayGeometry]
    norm_num [h400]
  · simp [eyeOverlayGeometry]
    norm_num [h400]
  · simp [eyeOverlayGeometry]
    norm_num [h400]
  · simp [eyeOverlayGeometry]
    norm_num
  · simp [eyeOverlayGeometry]
  · rw [hlist]
    simp [CanvasOp.isDrawImage]

/-- C7 witness: the theorem with both decoration flags set. -/
theorem c7_witness :
    (eyeOverlayGeometry (10, 10) (30, 10)).eyeDistance = 20 ∧
    (eyeOverlayGeometry (10, 10) (30, 10)).glassesWidth = 60 ∧
    (eyeOverlayGeometry (10, 10) (30, 10)).glassesHeight = 30 ∧
    (eyeOverlayGeometry (10, 10) (30, 10)).centerX = 20 ∧
    (eyeOverlayGeometry (10, 10) (30, 10)).centerY = 10 ∧
    drawResults false [sampleFace] true true =
      [CanvasOp.beginPath, CanvasOp.arc 10 10 3 0 (2 * Real.pi),
       CanvasOp.arc 30 10 3 0 (2 * Real.pi), CanvasOp.fill] ∧
    (drawResults false [sampleFace] true true).filter
      CanvasOp.isDrawImage = [] :=
  c7_concrete_face_overlay true true

/-! ## C8 -/

/-- C8: a face whose keypoint sequence has no entry at the left-eye index
(1) or the right-eye index (2) contributes no canvas ops at all — neither
overlay image nor fallback circles — and removing it from the face list
leaves every other face's ops exactly as they were, in list order (the
rendering of the faces is independent). -/
theorem c8_missing_eye_face_is_skipped
    (imgLoaded boundingBox showKeypoints : Bool) (pre post : List Face)
    (face : Face)
    (h : face.keypoints[1]? = none ∨ face.keypoints[2]? = none) :
    drawFaceOps imgLoaded boundingBox showKeypoints face = [] ∧
    drawResults imgLoaded (pre ++ face :: post) boundingBox showKeypoints =
      drawResults imgLoaded (pre ++ post) boundingBox showKeypoints := by
  have h0 : drawFaceOps imgLoaded boundingBox showKeypoints face = [] := by
    rcases h with h | h
    · simp [drawFaceOps, List.getElem?_map, h]
    · cases h1 : face.keypoints[1]? with
      | none => simp [drawFaceOps, List.getElem?_map, h1]
      | some l => simp [drawFaceOps, List.getElem?_map, h1, h]
  refine ⟨h0, ?_⟩
  simp [drawResults, h0]

/-- C8 witness: the theorem applied to a one-keypoint face placed after the
sample face. -/
theorem c8_witness :
    drawFaceOps false false false faceMissingEyes = [] ∧
    drawResults false ([sampleFace] ++ faceMissingEyes :: []) false false =
      drawResults false ([sampleFace] ++ []) false false :=
  c8_missing_eye_face_is_skipped false false false [sampleFace] []
    faceMissingEyes (Or.inl rfl)

/-! ## C9 -/

/-- C9: the ops issued by `drawResults` do not depend on the `boundingBox`
and `showKeypoints` arguments: any two assignments of the two flags yield
the same op sequence for every face list (the decoration branches gated by
the flags are inert). -/
theorem c9_decoration_flags_are_inert (imgLoaded : Bool)
    (faces : List Face) (b1 s1 b2 s2 : Bool) :
    drawResults imgLoaded faces b1 s1 = drawResults imgLoaded faces b2 s2 := by
  have hfun : drawFaceOps imgLoaded b1 s1 = drawFaceOps imgLoaded b2 s2 := by
    funext f
    simp [drawFaceOps]
  rw [drawResults, drawResults, hfun]

/-- C9 witness: the two flag assignments (true, false) and (false, true)
issue the same ops on the sample face. -/
theorem c9_witness :
    drawResults false [sampleFace] true false =
      drawResults false [sampleFace] false true :=
  c9_decoration_flags_are_inert false [sampleFace] true false false true

/-! ## C10 -/

/-- C10: when the awaited `tf.setBackend` activation call throws inside
`resetBackend` (for a backend with a registered factory), the error
propagates and `STATE.lastTFJSBackend` keeps exactly the value it had
before the call: it is never set to the name of a backend that failed to
activate. -/
theorem c10_lastTFJSBackend_only_updated_after_activation
    (setBackendOk : String → Bool) (w : World) (backendName : String)
    (hreg : backendName ∈ w.engine.registryFactory)
    (hfail : setBackendOk backendName = false) :
    (resetBackend setBackendOk w backendName).err =
      some (JsError.setBackendFailed backendName) ∧
    (resetBackend setBackendOk w backendName).world.state.lastTFJSBackend =
      w.state.lastTFJSBackend := by
  rw [resetBackend, if_pos hreg]
  by_cases hlive : backendName ∈ w.engine.registry <;> simp [hlive, hfail]

/-- C10 witness: activation of webgl fails on the sample world; the recorded
last tfjs backend stays `none`. -/
theorem c10_witness :
    (resetBackend (fun _ => false) sampleWorld "webgl").err =
      some (JsError.setBackendFailed "webgl") ∧
    (resetBackend (fun _ => false) sampleWorld
        "webgl").world.state.lastTFJSBackend =
      sampleWorld.state.lastTFJSBackend :=
  c10_lastTFJSBackend_only_updated_after_activation (fun _ => false)
    sampleWorld "webgl" (by decide) rfl

end FaceDetectionUtil
